import Mathlib

/-!
Verification development for the `SamCameraProtocol1` camera session controller
(`src/sama5dx/camera/SamCameraProtocol1.cpp`).

The controller's observable state (the active `CameraParameters` set, the
preview window, the sensor device, the color converter attachment and the
callback notifier's picture bookkeeping) is embedded as a `SessionState`
record.  External capability calls whose results the controller branches on
(`PreviewWindow::startPreview`, `connectDevice`, `startDevice`, `stopDevice`,
`startDeliveringFrames`, `ColorConvert::isValid`) are supplied by an `Env`
record of response functions, so each controller operation is a pure function
`Env → SessionState → Int × SessionState` returning the status code and the
post-state, translated line by line from the source.
-/

namespace SamCameraProtocol1

/-! ### Status codes and pixel formats -/

def NO_ERROR : Int := 0

def EINVAL : Int := 22

/-- FourCC code for V4L2_PIX_FMT_YUYV (YUV 4:2:2 interleaved). -/
def V4L2_PIX_FMT_YUYV : Nat := 0x56595559

/-! ### CameraParameters key and value string constants (Android API) -/

def KEY_EXPOSURE_COMPENSATION : String := "exposure-compensation"

def KEY_MIN_EXPOSURE_COMPENSATION : String := "min-exposure-compensation"

def KEY_MAX_EXPOSURE_COMPENSATION : String := "max-exposure-compensation"

def KEY_EXPOSURE_COMPENSATION_STEP : String := "exposure-compensation-step"

def KEY_WHITE_BALANCE : String := "whitebalance"

def KEY_SUPPORTED_WHITE_BALANCE : String := "whitebalance-values"

def KEY_VIDEO_SIZE : String := "video-size"

def KEY_PREVIEW_SIZE : String := "preview-size"

def KEY_PICTURE_SIZE : String := "picture-size"

def KEY_PREVIEW_FORMAT : String := "preview-format"

def KEY_VIDEO_FRAME_FORMAT : String := "video-frame-format"

def KEY_PICTURE_FORMAT : String := "picture-format"

def KEY_JPEG_QUALITY : String := "jpeg-quality"

def RECORDING_HINT_KEY : String := "recording-hint"

def PIXEL_FORMAT_YUV420P : String := "yuv420p"

def PIXEL_FORMAT_YUV420SP : String := "yuv420sp"

def PIXEL_FORMAT_JPEG : String := "jpeg"

def TRUE_STR : String := "true"

/-! ### ParameterSet: key → value mapping, and the `CameraParameters`
accessors the controller uses.  `CameraParameters` itself is an external
Android class (out of scope per the spec); `getInt`/`getFloat` follow its
strtol/strtof behaviour on well-formed numerals and return `-1` for a
missing key, `getPreviewSize`-style pair accessors return `(-1, -1)` for a
missing or malformed value. -/

abbrev ParamSet := List (String × String)

def pget (p : ParamSet) (k : String) : Option String := List.lookup k p

/-- Accumulate a decimal digit run, stopping at the first non-digit
(strtol-style leading-numeral parse). -/
def digitsVal : List Char → Int → Int
  | [], acc => acc
  | c :: t, acc =>
    if c.isDigit then digitsVal t (acc * 10 + ((c.toNat : Int) - 48)) else acc

def strtolModel (s : String) : Int :=
  match s.data with
  | '-' :: t => - digitsVal t 0
  | l => digitsVal l 0

def getIntP (p : ParamSet) (k : String) : Int :=
  match pget p k with
  | none => -1
  | some v => strtolModel v

/-- Fractional digit run after the decimal point, with place value `w`. -/
def fracVal : List Char → ℚ → ℚ
  | [], _ => 0
  | c :: t, w =>
    if c.isDigit then ((c.toNat : ℚ) - 48) * w + fracVal t (w / 10) else 0

def strtofCore (l : List Char) : ℚ :=
  let ip := l.takeWhile (fun c => c ≠ '.')
  let fp := (l.dropWhile (fun c => c ≠ '.')).drop 1
  ((digitsVal ip 0 : Int) : ℚ) + fracVal fp (1 / 10)

def strtofModel (s : String) : ℚ :=
  match s.data with
  | '-' :: t => - strtofCore t
  | l => strtofCore l

def getFloatP (p : ParamSet) (k : String) : ℚ :=
  match pget p k with
  | none => -1
  | some v => strtofModel v

/-- Parse a `"WxH"` dimension pair; `(-1, -1)` when absent or unseparated. -/
def parsePair (s : String) : Int × Int :=
  if s.data.contains 'x' then
    (digitsVal (s.data.takeWhile (fun c => c ≠ 'x')) 0,
     digitsVal ((s.data.dropWhile (fun c => c ≠ 'x')).drop 1) 0)
  else (-1, -1)

def getSizeP (p : ParamSet) (k : String) : Int × Int :=
  match pget p k with
  | none => (-1, -1)
  | some v => parsePair v

/-- Does the pattern occur at the start of the text? (`strncmp`-style). -/
def listStartsWith : List Char → List Char → Bool
  | [], _ => true
  | _ :: _, [] => false
  | a :: as, b :: bs => a = b && listStartsWith as bs

/-- C `strstr(hay, needle) != NULL`: the needle occurs somewhere in the hay
as a contiguous substring. -/
def strstrFound (needle : List Char) : List Char → Bool
  | [] => needle.isEmpty
  | c :: t => listStartsWith needle (c :: t) || strstrFound needle t

/-! ### Session state and environment -/

/-- Observable state of the camera session owned by `SamCameraProtocol1`:
the active parameter set, the preview window activation, the sensor device
connection/start state and start configuration, frame delivery, the color
converter wiring, and the callback notifier's picture bookkeeping.  The
`exposureValue` and `whiteBalance` fields record the configuration most
recently pushed to the sensor capability. -/
structure SessionState where
  params : ParamSet
  previewEnabled : Bool
  deviceConnected : Bool
  deviceStarted : Bool
  deviceStartCfg : Option (Int × Int × Nat)
  deliveringFrames : Bool
  colorConvertAttached : Bool
  convertDstFormat : Option String
  takingPicture : Bool
  jpegQuality : Int
  exposureValue : Option ℚ
  whiteBalance : String
deriving DecidableEq

/-- Responses of the external capabilities (sensor device, preview window,
color converter) to the calls whose status the controller branches on. -/
structure Env where
  previewStartRes : Int
  connectRes : Int
  startDeviceRes : Int → Int → Nat → Int
  stopDeviceRes : Int
  startDeliveringRes : Bool → Int
  convertValid : String → Bool

/-! ### doStopPreview (source lines 635-655) -/

/-- `SamCameraProtocol1::doStopPreview`: if previewing, stop frame delivery
and the device when started; only when the stop succeeded, disable the
preview window and detach the color converter.  The function returns
`NO_ERROR` unconditionally (line 654 of the source). -/
def doStopPreview (env : Env) (s : SessionState) : Int × SessionState :=
  if s.previewEnabled then
    let stepA :=
      if s.deviceStarted then
        (env.stopDeviceRes,
         { s with deliveringFrames := false,
                  deviceStarted := if env.stopDeviceRes = NO_ERROR then false else true })
      else (NO_ERROR, s)
    let s2 :=
      if stepA.1 = NO_ERROR then
        { stepA.2 with previewEnabled := false, colorConvertAttached := false }
      else stepA.2
    (NO_ERROR, s2)
  else (NO_ERROR, s)

/-! ### doStartPreview (source lines 532-633) -/

/-- Frame size resolution of lines 557-563: an explicit video size wins over
the preview size. -/
def resolvePreviewSize (p : ParamSet) : Int × Int :=
  match pget p KEY_VIDEO_SIZE with
  | some _ => getSizeP p KEY_VIDEO_SIZE
  | none => getSizeP p KEY_PREVIEW_SIZE

/-- Pixel format resolution of lines 571-584: the video frame format is used
when the recording hint is set, else the preview format. -/
def resolvePreviewFormat (p : ParamSet) : Option String :=
  let isVideo := (pget p RECORDING_HINT_KEY).getD "false"
  let vfmt := if isVideo = TRUE_STR then pget p KEY_VIDEO_FRAME_FORMAT else none
  match vfmt with
  | some f => some f
  | none => pget p KEY_PREVIEW_FORMAT

/-- Framework pixel format → FourCC conversion of lines 592-602 (preview
path; JPEG is not accepted here). -/
def previewFourcc (f : String) : Option Nat :=
  if f = PIXEL_FORMAT_YUV420P then some V4L2_PIX_FMT_YUYV
  else if f = PIXEL_FORMAT_YUV420SP then some V4L2_PIX_FMT_YUYV
  else none

/-- `SamCameraProtocol1::doStartPreview`.  Note that the parameter set is
never modified by this function, so the size and format resolution reads of
lines 557-589 are hoisted to the entry.  On the invalid-converter path
(lines 614-618) only the preview window is stopped and the converter
detached; the started device is left started, exactly as in the source. -/
def doStartPreview (env : Env) (s : SessionState) : Int × SessionState :=
  let wh := resolvePreviewSize s.params
  let fmtOpt := resolvePreviewFormat s.params
  let sA :=
    if s.deviceStarted then
      { s with deliveringFrames := false,
               deviceStarted := if env.stopDeviceRes = NO_ERROR then false else true,
               colorConvertAttached := false }
    else s
  if env.previewStartRes ≠ NO_ERROR then (env.previewStartRes, sA)
  else
    let sB := { sA with previewEnabled := true }
    if sB.deviceConnected = false ∧ env.connectRes ≠ NO_ERROR then
      (env.connectRes, { sB with previewEnabled := false })
    else
      let sC := if sB.deviceConnected then sB else { sB with deviceConnected := true }
      match fmtOpt with
      | none => (EINVAL, { sC with previewEnabled := false })
      | some f =>
        match previewFourcc f with
        | none => (EINVAL, { sC with previewEnabled := false })
        | some org =>
          let sD := { sC with convertDstFormat := some f }
          let rs := env.startDeviceRes wh.1 wh.2 org
          if rs ≠ NO_ERROR then (rs, { sD with previewEnabled := false })
          else
            let sE := { sD with deviceStarted := true,
                                deviceStartCfg := some (wh.1, wh.2, org) }
            if env.convertValid f = false then
              (EINVAL, { sE with previewEnabled := false, colorConvertAttached := false })
            else
              let sF := { sE with colorConvertAttached := true }
              let rd := env.startDeliveringRes false
              if rd ≠ NO_ERROR then
                (rd, { sF with deviceStarted := if env.stopDeviceRes = NO_ERROR then false else true,
                               previewEnabled := false,
                               colorConvertAttached := false,
                               deliveringFrames := false })
              else (NO_ERROR, { sF with deliveringFrames := true })

/-! ### takePicture (source lines 327-399) -/

/-- Framework pixel format → FourCC conversion of lines 338-347 (picture
path; the YUV family and JPEG resolve to the YUV422 `YUYV` FourCC, anything
else is rejected). -/
def resolvePictureFourcc (f : String) : Option Nat :=
  if f = PIXEL_FORMAT_YUV420P then some V4L2_PIX_FMT_YUYV
  else if f = PIXEL_FORMAT_YUV420SP then some V4L2_PIX_FMT_YUYV
  else if f = PIXEL_FORMAT_JPEG then some V4L2_PIX_FMT_YUYV
  else none

/-- `SamCameraProtocol1::takePicture`.  The picture size, format and JPEG
quality are read from the active set at entry (lines 336-352, before any
state change).  An unsupported picture format returns `EINVAL` with no state
change.  On a later failure, preview is restarted when it was on. -/
def takePicture (env : Env) (s : SessionState) : Int × SessionState :=
  let wh := getSizeP s.params KEY_PICTURE_SIZE
  let pixFmt := (pget s.params KEY_PICTURE_FORMAT).getD ""
  match resolvePictureFourcc pixFmt with
  | none => (EINVAL, s)
  | some org =>
    let jq0 := getIntP s.params KEY_JPEG_QUALITY
    let jq := if jq0 ≤ 0 then 90 else jq0
    let previewOn := s.previewEnabled
    let s1 := if previewOn then (doStopPreview env s).2 else s
    let s2 :=
      if s1.deviceStarted then
        { s1 with deliveringFrames := false,
                  deviceStarted := if env.stopDeviceRes = NO_ERROR then false else true }
      else s1
    let rs := env.startDeviceRes wh.1 wh.2 org
    if rs ≠ NO_ERROR then
      let s3 := if previewOn then (doStartPreview env s2).2 else s2
      (rs, s3)
    else
      let s3 := { s2 with deviceStarted := true,
                          deviceStartCfg := some (wh.1, wh.2, org),
                          jpegQuality := jq,
                          takingPicture := true }
      let rd := env.startDeliveringRes true
      if rd ≠ NO_ERROR then
        let s4 := { s3 with takingPicture := false }
        let s5 := if previewOn then (doStartPreview env s4).2 else s4
        (rd, s5)
      else (NO_ERROR, { s3 with deliveringFrames := true })

/-! ### setParameters (source lines 409-469) -/

/-- Exposure clamping of lines 430-435: first cap at the maximum, then
raise to the minimum. -/
def clampExposure (n minE maxE : Int) : Int :=
  let a := if n > maxE then maxE else n
  if a < minE then minE else a

/-- `SamCameraProtocol1::setParameters`, written field-wise: the exposure
side effect (lines 421-447) and the white-balance side effect (lines
449-464) touch disjoint device fields and neither touches `mParameters`, so
the final state is assembled in one record update with `params` replaced
wholesale by the candidate (line 466).  Always returns `NO_ERROR`. -/
def setParameters (s : SessionState) (cand : ParamSet) : Int × SessionState :=
  let newE := getIntP cand KEY_EXPOSURE_COMPENSATION
  let minE := getIntP cand KEY_MIN_EXPOSURE_COMPENSATION
  let maxE := getIntP cand KEY_MAX_EXPOSURE_COMPENSATION
  let expUpdate : Option ℚ :=
    if minE ≠ 0 ∨ maxE ≠ 0 then
      let c := clampExposure newE minE maxE
      if getIntP s.params KEY_EXPOSURE_COMPENSATION ≠ c then
        some ((c : ℚ) * getFloatP cand KEY_EXPOSURE_COMPENSATION_STEP)
      else none
    else none
  let newExposure : Option ℚ :=
    match expUpdate with
    | some v => some v
    | none => s.exposureValue
  let wbNew : String :=
    match pget cand KEY_WHITE_BALANCE, pget cand KEY_SUPPORTED_WHITE_BALANCE with
    | some nw, some sup =>
      if strstrFound nw.data sup.data then
        match pget s.params KEY_WHITE_BALANCE with
        | none => nw
        | some cw => if cw ≠ nw then nw else s.whiteBalance
      else s.whiteBalance
    | _, _ => s.whiteBalance
  (NO_ERROR, { s with params := cand, exposureValue := newExposure, whiteBalance := wbNew })

/-! ### Frame fan-out (source lines 160-169) -/

inductive FrameSink
  | preview
  | delivery
deriving DecidableEq

/-- `SamCameraProtocol1::onNextFrameAvailable`: the trace of sink
deliveries performed for one frame-arrival notification, in source order. -/
def onNextFrameAvailable (frame timestamp : Nat) : List (FrameSink × Nat × Nat) :=
  [(FrameSink.preview, frame, timestamp), (FrameSink.delivery, frame, timestamp)]

/-! ### Spec-side definition used to compare the white-balance gate -/

/-- Modelled from the spec: the "supported-modes list" of §4.2, i.e. the
comma-separated member strings of the supported-white-balance value.  The
source itself has no such splitter (it uses `strstr`); this definition
follows the spec wording and exists only to be compared with the code's
behaviour. -/
def splitCsv : List Char → List (List Char)
  | [] => [[]]
  | ',' :: t => [] :: splitCsv t
  | c :: t =>
    match splitCsv t with
    | [] => [[c]]
    | h :: r => (c :: h) :: r

end SamCameraProtocol1

namespace SamCameraProtocol1

/-! ### Shared helper lemmas -/

/-- The clamp of lines 430-435 lands inside the bounds whenever the bounds
form a non-empty interval. -/
theorem clampExposure_mem (n minE maxE : Int) (h : minE ≤ maxE) :
    minE ≤ clampExposure n minE maxE ∧ clampExposure n minE maxE ≤ maxE := by
  simp only [clampExposure]
  constructor <;> split <;> split <;> omega

/-- `doStopPreview` never touches the active parameter set. -/
theorem doStopPreview_params (env : Env) (s : SessionState) :
    (doStopPreview env s).2.params = s.params := by
  simp only [doStopPreview]
  repeat' split
  all_goals rfl

/-- `doStartPreview` never touches the delivery sink's JPEG quality. -/
theorem doStartPreview_jpegQuality (env : Env) (s : SessionState) :
    (doStartPreview env s).2.jpegQuality = s.jpegQuality := by
  simp only [doStartPreview]
  repeat' split
  all_goals rfl

/-- When every capability call involved in a preview start succeeds and the
parameter set resolves to a supported preview format, `doStartPreview`
returns success with the preview window active. -/
theorem doStartPreview_success (env : Env) (s : SessionState) (f : String)
    (hstop : env.stopDeviceRes = NO_ERROR)
    (hwin : env.previewStartRes = NO_ERROR)
    (hconn : env.connectRes = NO_ERROR)
    (hf : resolvePreviewFormat s.params = some f)
    (horg : previewFourcc f = some V4L2_PIX_FMT_YUYV)
    (hdev : env.startDeviceRes (resolvePreviewSize s.params).1
              (resolvePreviewSize s.params).2 V4L2_PIX_FMT_YUYV = NO_ERROR)
    (hvalid : env.convertValid f = true)
    (hdel : env.startDeliveringRes false = NO_ERROR) :
    (doStartPreview env s).1 = NO_ERROR ∧
    (doStartPreview env s).2.previewEnabled = true := by
  cases hds : s.deviceStarted <;> cases hdc : s.deviceConnected <;>
    simp [doStartPreview, hds, hdc, hstop, hwin, hconn, hf, horg, hdev, hvalid, hdel]

/-- The exposure side effect of lines 429-446: with non-zero declared bounds
and a clamped value that differs from the currently active one, the sensor
is reconfigured with `clamped × step`. -/
theorem setParameters_exposureValue (s : SessionState) (cand : ParamSet)
    (hb : getIntP cand KEY_MIN_EXPOSURE_COMPENSATION ≠ 0 ∨
          getIntP cand KEY_MAX_EXPOSURE_COMPENSATION ≠ 0)
    (hch : getIntP s.params KEY_EXPOSURE_COMPENSATION ≠
           clampExposure (getIntP cand KEY_EXPOSURE_COMPENSATION)
             (getIntP cand KEY_MIN_EXPOSURE_COMPENSATION)
             (getIntP cand KEY_MAX_EXPOSURE_COMPENSATION)) :
    (setParameters s cand).2.exposureValue =
      some ((clampExposure (getIntP cand KEY_EXPOSURE_COMPENSATION)
               (getIntP cand KEY_MIN_EXPOSURE_COMPENSATION)
               (getIntP cand KEY_MAX_EXPOSURE_COMPENSATION) : ℚ) *
            getFloatP cand KEY_EXPOSURE_COMPENSATION_STEP) := by
  simp only [setParameters, if_pos hb, if_pos hch]

/-- The decimal step string `"0.5"` parses to the rational one half. -/
theorem strtof_half : strtofModel "0.5" = 1 / 2 := by
  have h5 : (('5'.toNat : Int) : ℚ) = 53 := by norm_num [show '5'.toNat = 53 from rfl]
  show ((digitsVal ['0'] 0 : Int) : ℚ) + ((('5'.toNat : ℚ) - 48) * (1 / 10) + 0) = 1 / 2
  have h0 : digitsVal ['0'] 0 = 0 := rfl
  rw [h0]
  push_cast at h5 ⊢
  rw [h5]
  norm_num

end SamCameraProtocol1

namespace SamCameraProtocol1

/-! ### Concrete fixtures used by witnesses and counterexamples -/

/-- A quiescent session: empty parameter set, nothing connected or
running. -/
def baseState : SessionState :=
  { params := [], previewEnabled := false, deviceConnected := false, deviceStarted := false,
    deviceStartCfg := none, deliveringFrames := false, colorConvertAttached := false,
    convertDstFormat := none, takingPicture := false, jpegQuality := 90,
    exposureValue := none, whiteBalance := "auto" }

/-- Candidate set of spec §8's exposure scenario: requested value 10 with
declared bounds [-6, 6] and step 0.5. -/
def candExp10 : ParamSet :=
  [(KEY_EXPOSURE_COMPENSATION, "10"), (KEY_MIN_EXPOSURE_COMPENSATION, "-6"),
   (KEY_MAX_EXPOSURE_COMPENSATION, "6"), (KEY_EXPOSURE_COMPENSATION_STEP, "0.5")]

/-- Session whose accepted set holds exposure compensation 0. -/
def sExp0 : SessionState := { baseState with params := [(KEY_EXPOSURE_COMPENSATION, "0")] }

/-! ### C1 -/

/-- C1 is false as stated: for the candidate `candExp10` (declared bounds
[-6, 6], requested exposure 10), the accepted parameter set after
`setParameters` still holds the raw requested value 10, which exceeds the
declared maximum 6 — line 466 of the source assigns the unmodified
candidate, the clamped value is only used for the device call. -/
theorem c1_counterexample :
    getIntP candExp10 KEY_MIN_EXPOSURE_COMPENSATION ≠ 0 ∧
    getIntP (setParameters sExp0 candExp10).2.params KEY_EXPOSURE_COMPENSATION = 10 ∧
    ¬ getIntP (setParameters sExp0 candExp10).2.params KEY_EXPOSURE_COMPENSATION ≤
        getIntP candExp10 KEY_MAX_EXPOSURE_COMPENSATION := by decide

/-- C1 (amended): for every setParameters call whose candidate declares a
non-zero minimum or maximum exposure bound with min ≤ max, the exposure
value used to reconfigure the device is the candidate's requested value
clamped into [min, max] (physical value clamped × step); the active
parameter set itself retains the candidate's raw requested value. -/
theorem c1_device_exposure_clamped (s : SessionState) (cand : ParamSet)
    (hb : getIntP cand KEY_MIN_EXPOSURE_COMPENSATION ≠ 0 ∨
          getIntP cand KEY_MAX_EXPOSURE_COMPENSATION ≠ 0)
    (hle : getIntP cand KEY_MIN_EXPOSURE_COMPENSATION ≤
           getIntP cand KEY_MAX_EXPOSURE_COMPENSATION)
    (hch : getIntP s.params KEY_EXPOSURE_COMPENSATION ≠
           clampExposure (getIntP cand KEY_EXPOSURE_COMPENSATION)
             (getIntP cand KEY_MIN_EXPOSURE_COMPENSATION)
             (getIntP cand KEY_MAX_EXPOSURE_COMPENSATION)) :
    (setParameters s cand).2.exposureValue =
      some ((clampExposure (getIntP cand KEY_EXPOSURE_COMPENSATION)
               (getIntP cand KEY_MIN_EXPOSURE_COMPENSATION)
               (getIntP cand KEY_MAX_EXPOSURE_COMPENSATION) : ℚ) *
            getFloatP cand KEY_EXPOSURE_COMPENSATION_STEP) ∧
    getIntP cand KEY_MIN_EXPOSURE_COMPENSATION ≤
      clampExposure (getIntP cand KEY_EXPOSURE_COMPENSATION)
        (getIntP cand KEY_MIN_EXPOSURE_COMPENSATION)
        (getIntP cand KEY_MAX_EXPOSURE_COMPENSATION) ∧
    clampExposure (getIntP cand KEY_EXPOSURE_COMPENSATION)
        (getIntP cand KEY_MIN_EXPOSURE_COMPENSATION)
        (getIntP cand KEY_MAX_EXPOSURE_COMPENSATION) ≤
      getIntP cand KEY_MAX_EXPOSURE_COMPENSATION :=
  ⟨setParameters_exposureValue s cand hb hch,
   (clampExposure_mem _ _ _ hle).1, (clampExposure_mem _ _ _ hle).2⟩

theorem c1_witness :
    ((getIntP candExp10 KEY_MIN_EXPOSURE_COMPENSATION ≠ 0 ∨
      getIntP candExp10 KEY_MAX_EXPOSURE_COMPENSATION ≠ 0) ∧
     getIntP candExp10 KEY_MIN_EXPOSURE_COMPENSATION ≤
       getIntP candExp10 KEY_MAX_EXPOSURE_COMPENSATION ∧
     getIntP sExp0.params KEY_EXPOSURE_COMPENSATION ≠
       clampExposure (getIntP candExp10 KEY_EXPOSURE_COMPENSATION)
         (getIntP candExp10 KEY_MIN_EXPOSURE_COMPENSATION)
         (getIntP candExp10 KEY_MAX_EXPOSURE_COMPENSATION)) ∧
    ((setParameters sExp0 candExp10).2.exposureValue =
      some ((clampExposure (getIntP candExp10 KEY_EXPOSURE_COMPENSATION)
               (getIntP candExp10 KEY_MIN_EXPOSURE_COMPENSATION)
               (getIntP candExp10 KEY_MAX_EXPOSURE_COMPENSATION) : ℚ) *
            getFloatP candExp10 KEY_EXPOSURE_COMPENSATION_STEP) ∧
     getIntP candExp10 KEY_MIN_EXPOSURE_COMPENSATION ≤
       clampExposure (getIntP candExp10 KEY_EXPOSURE_COMPENSATION)
         (getIntP candExp10 KEY_MIN_EXPOSURE_COMPENSATION)
         (getIntP candExp10 KEY_MAX_EXPOSURE_COMPENSATION) ∧
     clampExposure (getIntP candExp10 KEY_EXPOSURE_COMPENSATION)
         (getIntP candExp10 KEY_MIN_EXPOSURE_COMPENSATION)
         (getIntP candExp10 KEY_MAX_EXPOSURE_COMPENSATION) ≤
       getIntP candExp10 KEY_MAX_EXPOSURE_COMPENSATION) :=
  ⟨⟨by decide, by decide, by decide⟩,
   c1_device_exposure_clamped sExp0 candExp10 (by decide) (by decide) (by decide)⟩

/-! ### C5 -/

/-- C5: with the accepted set's current exposure different from 6, applying
the candidate `candExp10` (bounds [-6, 6], step 0.5, requested 10) clamps
the request to 6 and reconfigures the sensor with physical exposure value
3. -/
theorem c5_exposure_scenario (s : SessionState)
    (h : getIntP s.params KEY_EXPOSURE_COMPENSATION ≠ 6) :
    clampExposure 10 (-6) 6 = 6 ∧
    (setParameters s candExp10).2.exposureValue = some 3 := by
  have hc : clampExposure (getIntP candExp10 KEY_EXPOSURE_COMPENSATION)
      (getIntP candExp10 KEY_MIN_EXPOSURE_COMPENSATION)
      (getIntP candExp10 KEY_MAX_EXPOSURE_COMPENSATION) = 6 := by decide
  refine ⟨by decide, ?_⟩
  have he := setParameters_exposureValue s candExp10 (by decide) (by rw [hc]; exact h)
  rw [he, hc]
  have hstep : getFloatP candExp10 KEY_EXPOSURE_COMPENSATION_STEP = 1 / 2 := by
    have hv : pget candExp10 KEY_EXPOSURE_COMPENSATION_STEP = some "0.5" := by decide
    rw [getFloatP, hv]
    exact strtof_half
  rw [hstep]
  norm_num

theorem c5_witness :
    getIntP sExp0.params KEY_EXPOSURE_COMPENSATION ≠ 6 ∧
    (clampExposure 10 (-6) 6 = 6 ∧
     (setParameters sExp0 candExp10).2.exposureValue = some 3) :=
  ⟨by decide, c5_exposure_scenario sExp0 (by decide)⟩

/-! ### C8 -/

/-- C8: a frame-arrival notification delivers the same frame descriptor and
timestamp first to the preview sink and then to the delivery sink, with no
other fan-out targets. -/
theorem c8_frame_fanout_order (frame timestamp : Nat) :
    onNextFrameAvailable frame timestamp =
      [(FrameSink.preview, frame, timestamp), (FrameSink.delivery, frame, timestamp)] := rfl

/-! ### C9 -/

/-- C9: after the exposure and white-balance side effects, `setParameters`
replaces the active parameter set wholesale with the candidate: every key of
the candidate is carried verbatim and no key of the previous active set
survives unless present in the candidate (lookups agree with the candidate
on every key). -/
theorem c9_candidate_replaces_wholesale (s : SessionState) (cand : ParamSet) (k : String) :
    (setParameters s cand).2.params = cand ∧
    pget (setParameters s cand).2.params k = pget cand k :=
  ⟨rfl, rfl⟩

end SamCameraProtocol1

namespace SamCameraProtocol1

/-- Environment in which every capability call succeeds and the converter
is valid for every format. -/
def envAllOk : Env :=
  { previewStartRes := 0, connectRes := 0, startDeviceRes := fun _ _ _ => 0,
    stopDeviceRes := 0, startDeliveringRes := fun _ => 0, convertValid := fun _ => true }

/-! ### C2 -/

/-- Environment for the invalid-converter scenario: every device call
succeeds but the format converter reports itself invalid. -/
def c2env : Env :=
  { envAllOk with convertValid := fun _ => false }

/-- Connected, stopped session with a well-formed preview configuration. -/
def c2state : SessionState :=
  { baseState with
    params := [(KEY_PREVIEW_SIZE, "640x480"), (KEY_PREVIEW_FORMAT, "yuv420p")],
    deviceConnected := true }

/-- C2 fails on the code: when the converter reports itself invalid, the
call does fail with `EINVAL`, but the sensor device — started at line 608,
before the validity check of line 614 — is left started, because the
rollback of lines 615-617 stops only the preview window and detaches the
converter.  The observable state after the failing call therefore differs
from the state before it. -/
theorem c2_invalid_converter_leaves_device_started :
    c2state.deviceStarted = false ∧
    (doStartPreview c2env c2state).1 = EINVAL ∧
    (doStartPreview c2env c2state).2.deviceStarted = true ∧
    (doStartPreview c2env c2state).2.previewEnabled = false := by decide

/-! ### C3 -/

/-- Environment whose `stopDevice` reports failure status 5. -/
def c3env : Env :=
  { envAllOk with stopDeviceRes := 5 }

/-- Previewing session with the device started. -/
def c3state : SessionState :=
  { baseState with previewEnabled := true, deviceStarted := true, deviceConnected := true }

/-- C3 is false as stated: with the device started and `stopDevice`
reporting failure status 5, `doStopPreview` still returns `NO_ERROR` — the
source returns `NO_ERROR` unconditionally at line 654, so the failure is
replaced by success rather than propagated. -/
theorem c3_counterexample :
    c3env.stopDeviceRes ≠ NO_ERROR ∧
    c3state.previewEnabled = true ∧
    c3state.deviceStarted = true ∧
    (doStopPreview c3env c3state).1 = NO_ERROR := by decide

/-- C3 (amended): `doStopPreview` returns success unconditionally.  A call
made when not previewing changes nothing and returns success; a `stopDevice`
failure is swallowed in the return value, its only effect being that the
preview sink is left active (the disable step of lines 647-651 is
skipped). -/
theorem c3_stop_preview_swallows_failure (env : Env) (s : SessionState) :
    (doStopPreview env s).1 = NO_ERROR ∧
    (s.previewEnabled = false → doStopPreview env s = (NO_ERROR, s)) ∧
    (s.previewEnabled = true → s.deviceStarted = true → env.stopDeviceRes ≠ NO_ERROR →
      (doStopPreview env s).2.previewEnabled = true) := by
  refine ⟨?_, ?_, ?_⟩
  · simp only [doStopPreview]
    repeat' split
    all_goals rfl
  · intro hp
    simp [doStopPreview, hp]
  · intro hp hds hres
    simp [doStopPreview, hp, hds, hres]

theorem c3_witness :
    (doStopPreview c3env c3state).1 = NO_ERROR ∧
    doStopPreview c3env baseState = (NO_ERROR, baseState) ∧
    (doStopPreview c3env c3state).2.previewEnabled = true :=
  ⟨(c3_stop_preview_swallows_failure c3env c3state).1,
   (c3_stop_preview_swallows_failure c3env baseState).2.1 (by decide),
   (c3_stop_preview_swallows_failure c3env c3state).2.2 (by decide) (by decide) (by decide)⟩

/-! ### C4 -/

/-- Candidate requesting the mode "light", which is not a member of the
declared supported-modes list but occurs inside "daylight" and
"twilight". -/
def c4cand : ParamSet :=
  [(KEY_WHITE_BALANCE, "light"),
   (KEY_SUPPORTED_WHITE_BALANCE, "auto,incandescent,daylight,twilight")]

/-- Session whose active set and device hold white balance "auto". -/
def c4state : SessionState :=
  { baseState with params := [(KEY_WHITE_BALANCE, "auto")] }

/-- Candidate requesting the genuinely supported mode "daylight". -/
def c4candGood : ParamSet :=
  [(KEY_WHITE_BALANCE, "daylight"),
   (KEY_SUPPORTED_WHITE_BALANCE, "auto,incandescent,daylight,twilight")]

/-- Candidate requesting "fluorescent", which is neither a member nor a
substring of the declared supported-modes string. -/
def c4candBad : ParamSet :=
  [(KEY_WHITE_BALANCE, "fluorescent"),
   (KEY_SUPPORTED_WHITE_BALANCE, "auto,incandescent,daylight,twilight")]

/-- C4 is false as stated: "light" is not a member of the candidate's
supported-modes list (its comma-separated members are auto, incandescent,
daylight, twilight), yet `setParameters` changes the device's white-balance
mode to "light", because line 455 of the source tests support with
`strstr` — a substring search — and "light" occurs inside "daylight". -/
theorem c4_counterexample :
    (splitCsv ("auto,incandescent,daylight,twilight").data).contains ("light").data = false ∧
    c4state.whiteBalance = "auto" ∧
    (setParameters c4state c4cand).2.whiteBalance = "light" := by decide

/-- C4 (amended): `setParameters` changes the device's white-balance mode
only when the candidate's requested mode is a contiguous substring (in the
C `strstr` sense) of the candidate's own supported-modes string and differs
from the currently active mode; whenever the requested mode is missing, the
supported-modes string is missing, or the requested mode is not a substring
of it, the device's white-balance mode is left unchanged. -/
theorem c4_white_balance_substring_gate (s : SessionState) (cand : ParamSet) :
    (∀ nw sup, pget cand KEY_WHITE_BALANCE = some nw →
       pget cand KEY_SUPPORTED_WHITE_BALANCE = some sup →
       strstrFound nw.data sup.data = false →
       (setParameters s cand).2.whiteBalance = s.whiteBalance) ∧
    (pget cand KEY_WHITE_BALANCE = none →
       (setParameters s cand).2.whiteBalance = s.whiteBalance) ∧
    (pget cand KEY_SUPPORTED_WHITE_BALANCE = none →
       (setParameters s cand).2.whiteBalance = s.whiteBalance) ∧
    (∀ nw sup, pget cand KEY_WHITE_BALANCE = some nw →
       pget cand KEY_SUPPORTED_WHITE_BALANCE = some sup →
       strstrFound nw.data sup.data = true →
       (∀ cw, pget s.params KEY_WHITE_BALANCE = some cw → cw ≠ nw) →
       (setParameters s cand).2.whiteBalance = nw) := by
  refine ⟨?_, ?_, ?_, ?_⟩
  · intro nw sup hw hsup hns
    simp [setParameters, hw, hsup, hns]
  · intro hw
    cases hsup : pget cand KEY_SUPPORTED_WHITE_BALANCE <;>
      simp [setParameters, hw, hsup]
  · intro hsup
    cases hw : pget cand KEY_WHITE_BALANCE <;>
      simp [setParameters, hw, hsup]
  · intro nw sup hw hsup hyes hcur
    cases hc : pget s.params KEY_WHITE_BALANCE
    · simp [setParameters, hw, hsup, hyes, hc]
    · simp [setParameters, hw, hsup, hyes, hc, hcur _ hc]

theorem c4_witness :
    (setParameters c4state c4candBad).2.whiteBalance = c4state.whiteBalance ∧
    (setParameters c4state c4candGood).2.whiteBalance = "daylight" :=
  ⟨(c4_white_balance_substring_gate c4state c4candBad).1 "fluorescent"
     "auto,incandescent,daylight,twilight" (by decide) (by decide) (by decide),
   (c4_white_balance_substring_gate c4state c4candGood).2.2.2 "daylight"
     "auto,incandescent,daylight,twilight" (by decide) (by decide) (by decide)
     (by
       intro cw hcw
       have hv : pget c4state.params KEY_WHITE_BALANCE = some "auto" := rfl
       have h := Option.some.inj (hcw.symm.trans hv)
       subst h
       decide)⟩

end SamCameraProtocol1

namespace SamCameraProtocol1

/-! ### C6 -/

/-- Session requesting the unsupported picture format "rgb565". -/
def c6state : SessionState :=
  { baseState with
    params := [(KEY_PICTURE_FORMAT, "rgb565"), (KEY_PICTURE_SIZE, "1600x1200")],
    deviceConnected := true }

/-- C6: the three formats yuv420p, yuv420sp and jpeg — and only those —
are accepted by `takePicture`, each resolving the sensor source format to
the YUV422 `YUYV` FourCC; for any other picture-format value the call
returns `EINVAL` with the session state completely unchanged (in
particular, before preview is stopped or the device is started). -/
theorem c6_picture_format_gate :
    (∀ f : String,
       f = PIXEL_FORMAT_YUV420P ∨ f = PIXEL_FORMAT_YUV420SP ∨ f = PIXEL_FORMAT_JPEG →
       resolvePictureFourcc f = some V4L2_PIX_FMT_YUYV) ∧
    (∀ f : String,
       f ≠ PIXEL_FORMAT_YUV420P → f ≠ PIXEL_FORMAT_YUV420SP → f ≠ PIXEL_FORMAT_JPEG →
       resolvePictureFourcc f = none) ∧
    (∀ (env : Env) (s : SessionState),
       resolvePictureFourcc ((pget s.params KEY_PICTURE_FORMAT).getD "") = none →
       takePicture env s = (EINVAL, s)) := by
  refine ⟨?_, ?_, ?_⟩
  · rintro f (rfl | rfl | rfl) <;> rfl
  · intro f h1 h2 h3
    simp [resolvePictureFourcc, h1, h2, h3]
  · intro env s h
    simp only [takePicture, h]

theorem c6_witness :
    resolvePictureFourcc "jpeg" = some V4L2_PIX_FMT_YUYV ∧
    resolvePictureFourcc "rgb565" = none ∧
    takePicture envAllOk c6state = (EINVAL, c6state) :=
  ⟨c6_picture_format_gate.1 "jpeg" (Or.inr (Or.inr rfl)),
   c6_picture_format_gate.2.1 "rgb565" (by decide) (by decide) (by decide),
   c6_picture_format_gate.2.2 envAllOk c6state (by decide)⟩

/-! ### C10 -/

/-- Session requesting a JPEG picture with no jpeg-quality key set. -/
def c10state : SessionState :=
  { baseState with
    params := [(KEY_PICTURE_FORMAT, "jpeg"), (KEY_PICTURE_SIZE, "1600x1200")],
    deviceConnected := true }

/-- C10: on a `takePicture` call with an accepted picture format whose
device start succeeds, the delivery sink is armed with JPEG quality 90 when
the active set's jpeg-quality value is missing or not strictly positive
(`getInt` yields -1 for a missing key), and with the set's value
otherwise (lines 349-352 and 389). -/
theorem c10_jpeg_quality_default (env : Env) (s : SessionState) (f : String) (org : Nat)
    (hf : pget s.params KEY_PICTURE_FORMAT = some f)
    (horg : resolvePictureFourcc f = some org)
    (hdev : env.startDeviceRes (getSizeP s.params KEY_PICTURE_SIZE).1
              (getSizeP s.params KEY_PICTURE_SIZE).2 org = NO_ERROR) :
    (takePicture env s).2.jpegQuality =
      if getIntP s.params KEY_JPEG_QUALITY ≤ 0 then 90
      else getIntP s.params KEY_JPEG_QUALITY := by
  have hpix : (pget s.params KEY_PICTURE_FORMAT).getD "" = f := by
    rw [hf]
    rfl
  simp only [takePicture, hpix, horg, hdev]
  simp only [ne_eq, not_true_eq_false, if_false, reduceIte]
  split
  · split
    · rw [doStartPreview_jpegQuality]
    · rfl
  · rfl

theorem c10_witness :
    (takePicture envAllOk c10state).2.jpegQuality =
      (if getIntP c10state.params KEY_JPEG_QUALITY ≤ 0 then 90
       else getIntP c10state.params KEY_JPEG_QUALITY) ∧
    (if getIntP c10state.params KEY_JPEG_QUALITY ≤ 0 then (90 : Int)
     else getIntP c10state.params KEY_JPEG_QUALITY) = 90 :=
  ⟨c10_jpeg_quality_default envAllOk c10state "jpeg" V4L2_PIX_FMT_YUYV
     (by decide) (by decide) (by decide),
   by decide⟩

end SamCameraProtocol1

namespace SamCameraProtocol1

/-! ### C7 -/

/-- C7: when the session's stop/restart capability calls succeed and the
parameter set resolves to a supported preview configuration, a `takePicture`
call with an accepted picture format whose picture path fails — at the
device start for the picture frame or at single-frame delivery — returns a
failure status with the preview-active state exactly as before the call:
restarted when preview was on (lines 382-384 and 394-396), still inactive
when it was off. -/
theorem c7_take_picture_restores_preview (env : Env) (s : SessionState) (f : String)
    (hstop : env.stopDeviceRes = NO_ERROR)
    (hwin : env.previewStartRes = NO_ERROR)
    (hconn : env.connectRes = NO_ERROR)
    (hf : resolvePreviewFormat s.params = some f)
    (horg : previewFourcc f = some V4L2_PIX_FMT_YUYV)
    (hdevP : env.startDeviceRes (resolvePreviewSize s.params).1
               (resolvePreviewSize s.params).2 V4L2_PIX_FMT_YUYV = NO_ERROR)
    (hvalid : env.convertValid f = true)
    (hdelP : env.startDeliveringRes false = NO_ERROR)
    (hpic : resolvePictureFourcc ((pget s.params KEY_PICTURE_FORMAT).getD "") =
              some V4L2_PIX_FMT_YUYV)
    (hfail : env.startDeviceRes (getSizeP s.params KEY_PICTURE_SIZE).1
               (getSizeP s.params KEY_PICTURE_SIZE).2 V4L2_PIX_FMT_YUYV ≠ NO_ERROR ∨
             env.startDeliveringRes true ≠ NO_ERROR) :
    (takePicture env s).1 ≠ NO_ERROR ∧
    (takePicture env s).2.previewEnabled = s.previewEnabled := by
  have hrestore : ∀ t : SessionState, t.params = s.params →
      (doStartPreview env t).2.previewEnabled = true := by
    intro t ht
    refine (doStartPreview_success env t f hstop hwin hconn ?_ horg ?_ hvalid hdelP).2
    · rw [ht]
      exact hf
    · rw [ht]
      exact hdevP
  constructor
  · simp only [takePicture, hpic]
    split
    · rename_i hrs
      simpa using hrs
    · rename_i hrs
      split
      · rename_i hrd
        simpa using hrd
      · rename_i hrd
        exfalso
        rcases hfail with ha | hb
        · exact ha (not_not.mp hrs)
        · exact hb (not_not.mp hrd)
  · cases hp : s.previewEnabled
    · simp only [takePicture, hpic, hp]
      repeat' split
      all_goals simp_all
    · simp only [takePicture, hpic, hp, reduceIte]
      split
      · exact hrestore _ (by split <;> exact doStopPreview_params env s)
      · rename_i hrs
        split
        · exact hrestore _ (by split <;> exact doStopPreview_params env s)
        · rename_i hrd
          exfalso
          rcases hfail with ha | hb
          · exact ha (not_not.mp hrs)
          · exact hb (not_not.mp hrd)

end SamCameraProtocol1

namespace SamCameraProtocol1

/-- Environment that fails the 1600-wide picture device start with status 17
and succeeds everywhere else. -/
def c7env : Env :=
  { envAllOk with startDeviceRes := fun w _ _ => if w = 1600 then 17 else 0 }

/-- Previewing session with distinct preview and picture sizes. -/
def c7state : SessionState :=
  { baseState with
    params := [(KEY_PREVIEW_SIZE, "640x480"), (KEY_PREVIEW_FORMAT, "yuv420p"),
               (KEY_PICTURE_SIZE, "1600x1200"), (KEY_PICTURE_FORMAT, "jpeg"),
               (KEY_JPEG_QUALITY, "85")],
    previewEnabled := true, deviceConnected := true }

theorem c7_witness :
    (takePicture c7env c7state).1 ≠ NO_ERROR ∧
    (takePicture c7env c7state).2.previewEnabled = c7state.previewEnabled :=
  c7_take_picture_restores_preview c7env c7state "yuv420p" (by decide) (by decide)
    (by decide) (by decide) (by decide) (by decide) (by decide) (by decide)
    (by decide) (Or.inl (by decide))

end SamCameraProtocol1
